import Mathlib

/-!
# Verification of the F1sh-Camera-TX reconciliation controller

A shallow embedding of the configuration / pipeline-supervision logic of
`src/f1sh_camera_tx.c` (the named, current variant of the program), together
with theorems settling the specification claims about it.

Modelling conventions:
* C `gint` values are modelled as `Int`, with the narrowing conversion from
  jansson's 64-bit `json_int_t` made explicit by `gintOfJson` (two's-complement
  wrap-around, the behaviour of the gcc/arm targets this program is built for).
* `gfloat` / `double` values (`lens_position`) are only ever stored and echoed
  by the program, never computed with, so they are modelled as exact rationals.
* A JSON field that is absent, or present with the wrong type, is skipped
  identically by the C code (`json_is_*` guards); both are modelled as `none`.
* The GStreamer backend is modelled by an environment (`BuildEnv`) recording
  which element creations / link attempts / state changes succeed.
-/

/-- Two's-complement narrowing of jansson's `json_int_t` (64-bit) to C `gint`
(32-bit), as in `gint new_port = json_integer_value(value);`
(src/f1sh_camera_tx.c:332, and likewise for width/height/framerate). -/
def gintOfJson (n : Int) : Int :=
  (n + 2 ^ 31) % 2 ^ 32 - 2 ^ 31

/-- `AppConfig` (src/f1sh_camera_tx.c:27-38). -/
structure AppConfig where
  host : String
  port : Int
  src_type : String
  device : String
  encoder_type : String
  width : Int
  height : Int
  framerate : Int
  autofocus : Bool
  lens_position : Rat
deriving DecidableEq, Repr

/-- `init_config` defaults (src/f1sh_camera_tx.c:16-24,156-167). -/
def init_config : AppConfig where
  host := "127.0.0.1"
  port := 5000
  src_type := "libcamerasrc"
  device := ""
  encoder_type := "v4l2h264enc"
  width := 1280
  height := 720
  framerate := 60
  autofocus := false
  lens_position := 1

/-- `StreamStats` (src/f1sh_camera_tx.c:41-47); the mutex is a locking
artefact, not data.  `start_time` is an abstract monotonic clock value. -/
structure StreamStats where
  total_bytes : Nat
  frame_count : Nat
  current_bitrate : Rat
  start_time : Nat
deriving DecidableEq, Repr

/-- The live udpsink of a built pipeline, i.e. the part of the opaque
`GstElement *pipeline` handle that the controller itself reads or patches:
the sink destination set at build time (src/f1sh_camera_tx.c:727) or by a
hot patch (src/f1sh_camera_tx.c:430), plus which encoder element actually
ended up inside the pipeline (configured one or fallback). -/
structure PipelineHandle where
  sinkHost : String
  sinkPort : Int
  encoder : String
deriving DecidableEq, Repr

/-- `CustomData` (src/f1sh_camera_tx.c:49-58): the shared controller state.
`busPresent` models the `GstBus *bus` pointer being non-NULL. -/
structure CustomData where
  pipeline : Option PipelineHandle
  busPresent : Bool
  config : AppConfig
  stats : StreamStats
  pipeline_is_restarting : Bool
  should_terminate : Bool
deriving DecidableEq, Repr

/-- A JSON number as jansson distinguishes it: `json_is_real` vs
`json_is_integer` (src/f1sh_camera_tx.c:410-414). -/
inductive JNum where
  | real (v : Rat)
  | int (v : Int)
deriving DecidableEq, Repr

/-- A parsed `POST /config` body: each field is `some v` when present with
the type the C code tests for, `none` when absent or of another type
(both are skipped identically by the `json_is_*` guards). -/
structure ConfigUpdate where
  host : Option String := none
  port : Option Int := none
  src : Option String := none
  device : Option String := none
  encoder : Option String := none
  width : Option Int := none
  height : Option Int := none
  framerate : Option Int := none
  autofocus : Option Bool := none
  lens_position : Option JNum := none
deriving DecidableEq, Repr

/-! ## Field-by-field update logic of `process_config_update`

Each definition below embeds one `json_object_get(root, "...")` block of
`process_config_update` (src/f1sh_camera_tx.c:320-414).  The C blocks are
sequential but independent (each reads and writes only its own config field
and or-accumulates into one of the two booleans), so they are embedded as
independent per-field functions returning (new value, flag contribution). -/

/-- "host" block (src/f1sh_camera_tx.c:320-328): change-detected, sets
`needs_udp_update`. -/
def newHost (cfg : AppConfig) (u : ConfigUpdate) : String × Bool :=
  match u.host with
  | some v => if cfg.host ≠ v then (v, true) else (cfg.host, false)
  | none => (cfg.host, false)

/-- "port" block (src/f1sh_camera_tx.c:330-337): narrowed to `gint`,
change-detected, no range check, sets `needs_udp_update`. -/
def newPort (cfg : AppConfig) (u : ConfigUpdate) : Int × Bool :=
  match u.port with
  | some v =>
      let new_port := gintOfJson v
      if cfg.port ≠ new_port then (new_port, true) else (cfg.port, false)
  | none => (cfg.port, false)

/-- "src" block (src/f1sh_camera_tx.c:339-347): change-detected, sets
`needs_pipeline_rebuild`. -/
def newSrc (cfg : AppConfig) (u : ConfigUpdate) : String × Bool :=
  match u.src with
  | some v => if cfg.src_type ≠ v then (v, true) else (cfg.src_type, false)
  | none => (cfg.src_type, false)

/-- "device" block (src/f1sh_camera_tx.c:349-355): NOT change-detected —
any present device string is stored and sets `needs_pipeline_rebuild`,
even when equal to the current value. -/
def newDevice (cfg : AppConfig) (u : ConfigUpdate) : String × Bool :=
  match u.device with
  | some v => (v, true)
  | none => (cfg.device, false)

/-- "encoder" block (src/f1sh_camera_tx.c:357-365): change-detected, sets
`needs_pipeline_rebuild`. -/
def newEncoder (cfg : AppConfig) (u : ConfigUpdate) : String × Bool :=
  match u.encoder with
  | some v => if cfg.encoder_type ≠ v then (v, true) else (cfg.encoder_type, false)
  | none => (cfg.encoder_type, false)

/-- "width" block (src/f1sh_camera_tx.c:367-376): accepted iff the narrowed
value is in [320, 4096] (and differs from the current value); out-of-range
values only print a warning and keep the current value. -/
def newWidth (cfg : AppConfig) (u : ConfigUpdate) : Int × Bool :=
  match u.width with
  | some v =>
      let new_width := gintOfJson v
      if 320 ≤ new_width ∧ new_width ≤ 4096 ∧ new_width ≠ cfg.width then
        (new_width, true)
      else
        (cfg.width, false)
  | none => (cfg.width, false)

/-- "height" block (src/f1sh_camera_tx.c:378-387): accepted iff the narrowed
value is in [240, 2160]. -/
def newHeight (cfg : AppConfig) (u : ConfigUpdate) : Int × Bool :=
  match u.height with
  | some v =>
      let new_height := gintOfJson v
      if 240 ≤ new_height ∧ new_height ≤ 2160 ∧ new_height ≠ cfg.height then
        (new_height, true)
      else
        (cfg.height, false)
  | none => (cfg.height, false)

/-- "framerate" block (src/f1sh_camera_tx.c:389-398): accepted iff the
narrowed value is in [1, 120]. -/
def newFramerate (cfg : AppConfig) (u : ConfigUpdate) : Int × Bool :=
  match u.framerate with
  | some v =>
      let new_framerate := gintOfJson v
      if 1 ≤ new_framerate ∧ new_framerate ≤ 120 ∧ new_framerate ≠ cfg.framerate then
        (new_framerate, true)
      else
        (cfg.framerate, false)
  | none => (cfg.framerate, false)

/-- "autofocus" block (src/f1sh_camera_tx.c:400-407): change-detected, sets
`needs_pipeline_rebuild`. -/
def newAutofocus (cfg : AppConfig) (u : ConfigUpdate) : Bool × Bool :=
  match u.autofocus with
  | some v => if v ≠ cfg.autofocus then (v, true) else (cfg.autofocus, false)
  | none => (cfg.autofocus, false)

/-- "lens_position" block (src/f1sh_camera_tx.c:409-414): stored
unconditionally, from a real or from an integer, no flag. -/
def newLens (cfg : AppConfig) (u : ConfigUpdate) : Rat :=
  match u.lens_position with
  | some (.real r) => r
  | some (.int i) => (i : Rat)
  | none => cfg.lens_position

/-- Result of the field-merging phase of `process_config_update`:
the mutated configuration and the two decision booleans
(src/f1sh_camera_tx.c:309-310). -/
structure ApplyResult where
  config : AppConfig
  needsRebuild : Bool
  needsUdp : Bool
deriving DecidableEq, Repr

/-- The field-merging phase of `process_config_update`
(src/f1sh_camera_tx.c:307-414), as the parallel composition of the
independent per-field blocks. -/
def process_config_fields (cfg : AppConfig) (u : ConfigUpdate) : ApplyResult :=
  { config :=
      { host := (newHost cfg u).1
        port := (newPort cfg u).1
        src_type := (newSrc cfg u).1
        device := (newDevice cfg u).1
        encoder_type := (newEncoder cfg u).1
        width := (newWidth cfg u).1
        height := (newHeight cfg u).1
        framerate := (newFramerate cfg u).1
        autofocus := (newAutofocus cfg u).1
        lens_position := newLens cfg u }
    needsRebuild :=
      (newSrc cfg u).2 || (newDevice cfg u).2 || (newEncoder cfg u).2 ||
      (newWidth cfg u).2 || (newHeight cfg u).2 || (newFramerate cfg u).2 ||
      (newAutofocus cfg u).2
    needsUdp := (newHost cfg u).2 || (newPort cfg u).2 }

/-- `process_config_update` (src/f1sh_camera_tx.c:295-446), on a
successfully parsed body: merge fields, then either flag a pipeline
restart (src/f1sh_camera_tx.c:417-422), hot-patch the udpsink when only
the sink address changed and a pipeline is live
(src/f1sh_camera_tx.c:423-435), or do nothing further. -/
def process_config_update (data : CustomData) (u : ConfigUpdate) : CustomData :=
  let r := process_config_fields data.config u
  if r.needsRebuild then
    { data with config := r.config, pipeline_is_restarting := true }
  else if r.needsUdp then
    match data.pipeline with
    | some sink =>
        { data with
            config := r.config
            pipeline := some { sink with sinkHost := r.config.host, sinkPort := r.config.port } }
    | none => { data with config := r.config }
  else
    { data with config := r.config }

/-- `handle_get_config` (src/f1sh_camera_tx.c:225-246) serialises the full
configuration snapshot under the state lock; on the model it returns the
snapshot itself. -/
def handle_get_config (data : CustomData) : AppConfig :=
  data.config

/-- An HTTP response of the control API. -/
inductive HttpResponse where
  | ok (body : String)
  | badRequest (body : String)
  | notFound (body : String)
deriving DecidableEq, Repr

/-- Fixed success body sent for every parsed `POST /config`
(src/f1sh_camera_tx.c:486). -/
def configUpdatedBody : String := "\x7b\"status\":\"configuration updated\"\x7d"

/-- Fixed failure body for an unparseable `POST /config` body
(src/f1sh_camera_tx.c:488). -/
def invalidJsonBody : String := "\x7b\"error\":\"Invalid JSON\"\x7d"

/-- The `POST /config` endpoint of `answer_to_connection`
(src/f1sh_camera_tx.c:475-491): on a parsed body (`some u`) the update is
processed and the fixed success body is returned with 200; an unparseable
body (`none`, `process_config_update` returning `MHD_NO` at
src/f1sh_camera_tx.c:299-302) yields the fixed error body with 400. -/
def post_config (data : CustomData) (body : Option ConfigUpdate) :
    CustomData × HttpResponse :=
  match body with
  | some u => (process_config_update data u, .ok configUpdatedBody)
  | none => (data, .badRequest invalidJsonBody)

/-! ## Pipeline build / teardown (`build_and_run_pipeline`) and the main loop

The GStreamer backend is opaque: which element creations, link attempts and
state changes succeed depends on the installed plugins and hardware.  A
`BuildEnv` records one such outcome vector; `build_and_run_pipeline` is the
control flow of the C function (src/f1sh_camera_tx.c:505-830) over it. -/

/-- Backend outcome vector for one `build_and_run_pipeline` call. -/
structure BuildEnv where
  /-- clock reading used for `stats.start_time` on reset (src:787) -/
  now : Nat
  /-- `gst_pipeline_new` (src:537) returns non-NULL -/
  pipelineNewOk : Bool
  /-- source element creation (src:547) succeeds -/
  srcOk : Bool
  /-- capsfilter creation (src:617) succeeds -/
  capsfilterOk : Bool
  /-- creation of the configured encoder (src:642) succeeds -/
  encoderOk : Bool
  /-- creation of the fallback encoder (src:647,653) succeeds -/
  fallbackOk : Bool
  /-- h264parse creation (src:687) succeeds -/
  parserOk : Bool
  /-- encoder caps filter creation (src:694) succeeds -/
  encoderCapsOk : Bool
  /-- rtph264pay creation (src:705) succeeds -/
  payloaderOk : Bool
  /-- udpsink creation (src:712) succeeds -/
  sinkOk : Bool
  /-- first `gst_element_link_many` (src:740) succeeds -/
  linkOk : Bool
  /-- retry link at fallback resolution 1280x720 (src:767) succeeds -/
  retryLinkOk : Bool
  /-- `gst_element_set_state(PLAYING)` (src:790) does not fail -/
  playingOk : Bool
deriving DecidableEq, Repr

/-- Encoder creation with the bounded fallback list
(src/f1sh_camera_tx.c:642-663): the configured encoder first; on failure,
`v4l2h264enc` falls back to `x264enc` and `x264enc` falls back to
`v4l2h264enc`; any other configured encoder has no fallback.  Returns the
name of the encoder actually created, or `none` when all attempts fail. -/
def makeEncoder (env : BuildEnv) (enc : String) : Option String :=
  if env.encoderOk then some enc
  else if enc = "v4l2h264enc" then
    if env.fallbackOk then some "x264enc" else none
  else if enc = "x264enc" then
    if env.fallbackOk then some "v4l2h264enc" else none
  else none

/-- The linking stage (src/f1sh_camera_tx.c:740-778): first link attempt;
on failure at a non-1280x720 resolution, one retry with fallback 1280x720
caps; on failure at 1280x720 the code's `else` branch proceeds anyway
(a quirk of the source: that branch only prints a success message). -/
def linkStageOk (env : BuildEnv) (cfg : AppConfig) : Bool :=
  env.linkOk ||
    (if cfg.width ≠ 1280 || cfg.height ≠ 720 then env.retryLinkOk else true)

/-- The stats reset block (src/f1sh_camera_tx.c:782-788). -/
def resetStats (now : Nat) : StreamStats :=
  { total_bytes := 0, frame_count := 0, current_bitrate := 0, start_time := now }

/-- Result of one `build_and_run_pipeline` call, with event counts:
`teardowns` = existing pipelines stopped and released (src:512-531),
`builds` = pipelines constructed by `gst_pipeline_new` (src:537),
`resets` = executions of the stats reset block (src:782-788). -/
structure BuildResult where
  data : CustomData
  success : Bool
  teardowns : Nat
  builds : Nat
  resets : Nat
deriving DecidableEq, Repr

/-- `build_and_run_pipeline` (src/f1sh_camera_tx.c:505-830).  Every failure
path runs the `error:` label (src:818-829), which releases and NULLs the
pipeline and bus; the stats reset (src:782-788) runs after successful
linking and *before* the PLAYING state change, so a failure of that state
change still resets the stats. -/
def build_and_run_pipeline (env : BuildEnv) (data0 : CustomData) : BuildResult :=
  let tear : Nat := if data0.pipeline.isSome then 1 else 0
  let data := { data0 with pipeline := none, busPresent := false }
  if !env.pipelineNewOk then
    ⟨data, false, tear, 0, 0⟩
  else if !env.srcOk then
    ⟨data, false, tear, 1, 0⟩
  else if !env.capsfilterOk then
    ⟨data, false, tear, 1, 0⟩
  else
    match makeEncoder env data.config.encoder_type with
    | none => ⟨data, false, tear, 1, 0⟩
    | some enc =>
      if !env.parserOk then
        ⟨data, false, tear, 1, 0⟩
      else if !env.encoderCapsOk then
        ⟨data, false, tear, 1, 0⟩
      else if !env.payloaderOk then
        ⟨data, false, tear, 1, 0⟩
      else if !env.sinkOk then
        ⟨data, false, tear, 1, 0⟩
      else if !(linkStageOk env data.config) then
        ⟨data, false, tear, 1, 0⟩
      else
        let data := { data with stats := resetStats env.now }
        if !env.playingOk then
          ⟨data, false, tear, 1, 1⟩
        else
          ⟨{ data with
              pipeline := some ⟨data.config.host, data.config.port, enc⟩
              busPresent := true },
            true, tear, 1, 1⟩

/-- Outcome of one pass through the restart branch of the main loop. -/
structure RestartOutcome where
  data : CustomData
  attempts : Nat
  teardowns : Nat
  builds : Nat
  resets : Nat
deriving DecidableEq, Repr

/-- The `pipeline_is_restarting` branch of the main loop
(src/f1sh_camera_tx.c:881-897): clear the flag, rebuild; on failure try one
more rebuild with the same configuration ("restore default" in the log
message, though the configuration is unchanged); if that also fails, set
`should_terminate`.  The two `BuildEnv`s are the backend outcomes of the
(up to) two attempts. -/
def main_restart_step (env1 env2 : BuildEnv) (data : CustomData) : RestartOutcome :=
  if data.pipeline_is_restarting then
    let data := { data with pipeline_is_restarting := false }
    let r1 := build_and_run_pipeline env1 data
    if r1.success then
      ⟨r1.data, 1, r1.teardowns, r1.builds, r1.resets⟩
    else
      let r2 := build_and_run_pipeline env2 r1.data
      if r2.success then
        ⟨r2.data, 2, r1.teardowns + r2.teardowns, r1.builds + r2.builds,
          r1.resets + r2.resets⟩
      else
        ⟨{ r2.data with should_terminate := true }, 2,
          r1.teardowns + r2.teardowns, r1.builds + r2.builds,
          r1.resets + r2.resets⟩
  else
    ⟨data, 0, 0, 0, 0⟩

/-- The kinds of bus message the main loop filters for
(src/f1sh_camera_tx.c:907-909). -/
inductive GstMessage where
  | error
  | warning
  | info
  | eos
  | stateChanged
deriving DecidableEq, Repr

/-- The message classification switch of the main loop
(src/f1sh_camera_tx.c:914-953): ERROR and EOS set `should_terminate`;
WARNING, INFO and STATE_CHANGED only log. -/
def handle_bus_message (data : CustomData) (msg : GstMessage) : CustomData :=
  match msg with
  | .error => { data with should_terminate := true }
  | .eos => { data with should_terminate := true }
  | .warning => data
  | .info => data
  | .stateChanged => data

/-- The main loop's continuation condition `while (!data.should_terminate)`
(src/f1sh_camera_tx.c:962). -/
def main_loop_continues (data : CustomData) : Bool :=
  !data.should_terminate

/-- All backend operations of a build succeed. -/
def BuildEnv.allOk (env : BuildEnv) : Prop :=
  env.pipelineNewOk ∧ env.srcOk ∧ env.capsfilterOk ∧ env.encoderOk ∧
  env.parserOk ∧ env.encoderCapsOk ∧ env.payloaderOk ∧ env.sinkOk ∧
  env.linkOk ∧ env.playingOk

/-- The build control flow reaches the stats-reset / start phase:
every element was created (configured encoder or a fallback) and the
linking stage passed. -/
def reachesStartPhase (env : BuildEnv) (cfg : AppConfig) : Bool :=
  env.pipelineNewOk && env.srcOk && env.capsfilterOk &&
  (makeEncoder env cfg.encoder_type).isSome && env.parserOk &&
  env.encoderCapsOk && env.payloaderOk && env.sinkOk && linkStageOk env cfg

/-! ## Sample states for concrete counterexamples and witnesses -/

/-- A handle as built from the default configuration. -/
def sampleHandle : PipelineHandle :=
  { sinkHost := "127.0.0.1", sinkPort := 5000, encoder := "v4l2h264enc" }

/-- A running controller: default configuration, live pipeline, some
accumulated statistics. -/
def runningData : CustomData :=
  { pipeline := some sampleHandle
    busPresent := true
    config := init_config
    stats := { total_bytes := 999, frame_count := 42, current_bitrate := 0, start_time := 7 }
    pipeline_is_restarting := false
    should_terminate := false }

/-- A backend environment in which every operation succeeds. -/
def envAllOk : BuildEnv :=
  { now := 100, pipelineNewOk := true, srcOk := true, capsfilterOk := true,
    encoderOk := true, fallbackOk := true, parserOk := true,
    encoderCapsOk := true, payloaderOk := true, sinkOk := true,
    linkOk := true, retryLinkOk := true, playingOk := true }

/-- Everything succeeds except the final PLAYING state change. -/
def envPlayFail : BuildEnv := { envAllOk with playingOk := false }

/-- Every backend operation fails. -/
def envAllFail : BuildEnv :=
  { now := 0, pipelineNewOk := false, srcOk := false, capsfilterOk := false,
    encoderOk := false, fallbackOk := false, parserOk := false,
    encoderCapsOk := false, payloaderOk := false, sinkOk := false,
    linkOk := false, retryLinkOk := false, playingOk := false }

/-! ## Helper lemmas -/

/-- `gintOfJson` is the identity on values representable in a 32-bit
signed integer. -/
theorem gintOfJson_eq_self {n : Int} (h1 : -(2 ^ 31) ≤ n) (h2 : n < 2 ^ 31) :
    gintOfJson n = n := by
  unfold gintOfJson
  omega

set_option maxHeartbeats 1000000 in
/-- Every failing path of `build_and_run_pipeline` runs the `error:` label
(or precedes pipeline creation), so a failed build leaves no pipeline
handle. -/
theorem build_fail_no_pipeline (env : BuildEnv) (data : CustomData)
    (h : (build_and_run_pipeline env data).success = false) :
    (build_and_run_pipeline env data).data.pipeline = none := by
  revert h
  unfold build_and_run_pipeline
  repeat' split
  all_goals try (cases hk : makeEncoder env data.config.encoder_type)
  all_goals intro h
  all_goals try (cases hl : linkStageOk env data.config)
  all_goals simp_all

set_option maxHeartbeats 1000000 in
/-- A `build_and_run_pipeline` call resets the statistics exactly when its
control flow reaches the reset/start phase — i.e. after all elements are
created and linking passes — independently of whether the subsequent
PLAYING transition succeeds. -/
theorem build_resets_iff (env : BuildEnv) (data : CustomData) :
    (build_and_run_pipeline env data).resets =
      if reachesStartPhase env data.config then 1 else 0 := by
  unfold build_and_run_pipeline
  repeat' split
  all_goals try (cases hk : makeEncoder env data.config.encoder_type)
  all_goals try (cases hl : linkStageOk env data.config)
  all_goals simp_all [reachesStartPhase]

/-- On an all-successful backend, a build tears down the previous pipeline
(when one was live), constructs and starts one pipeline from the current
configuration, and resets the statistics once. -/
theorem build_allOk (env : BuildEnv) (data : CustomData) (h : env.allOk) :
    build_and_run_pipeline env data =
      { data :=
          { data with
              pipeline := some
                { sinkHost := data.config.host, sinkPort := data.config.port,
                  encoder := data.config.encoder_type }
              busPresent := true
              stats := resetStats env.now }
        success := true
        teardowns := if data.pipeline.isSome then 1 else 0
        builds := 1
        resets := 1 } := by
  obtain ⟨h1, h2, h3, h4, h5, h6, h7, h8, h9, h10⟩ := h
  unfold build_and_run_pipeline makeEncoder linkStageOk
  simp [h1, h2, h3, h4, h5, h6, h7, h8, h9, h10]

/-- All three decision branches of `process_config_update` store the merged
configuration. -/
theorem process_config_update_config (data : CustomData) (u : ConfigUpdate) :
    (process_config_update data u).config =
      (process_config_fields data.config u).config := by
  simp only [process_config_update]
  repeat' split
  all_goals rfl

/-! ## Claim C1: width and height acceptance bounds -/

/-- Claim C1 counterexample: the claim states that a width is accepted iff
it lies in [320, 4608] and a height iff it lies in [240, 2592].  But the
code (src/f1sh_camera_tx.c:370,381) validates against [320, 4096] and
[240, 2160]: width 4608 (inside the claimed range) is rejected — the stored
width stays 1280 — and likewise height 2592 stays 720. -/
theorem c1_counterexample :
    (320 ≤ (4608 : Int) ∧ (4608 : Int) ≤ 4608) ∧
    (process_config_fields init_config { width := some 4608 }).config.width = 1280 ∧
    (process_config_fields init_config { height := some 2592 }).config.height = 720 ∧
    ((1280 : Int) ≠ 4608 ∧ (720 : Int) ≠ 2592) := by
  decide

/-- Claim C1, amended: for every POST /config update, an integer width
field (within the 32-bit `gint` range) is accepted — stored into the
configuration — if and only if it lies in [320, 4096], and an integer
height field iff it lies in [240, 2160]; an out-of-range value is rejected
and the prior value is retained. -/
theorem c1_width_height_bounds (cfg : AppConfig) (u : ConfigUpdate) (w h : Int) :
    (u.width = some w → -(2 ^ 31) ≤ w → w < 2 ^ 31 →
      ((320 ≤ w ∧ w ≤ 4096) → (process_config_fields cfg u).config.width = w) ∧
      (¬(320 ≤ w ∧ w ≤ 4096) → (process_config_fields cfg u).config.width = cfg.width)) ∧
    (u.height = some h → -(2 ^ 31) ≤ h → h < 2 ^ 31 →
      ((240 ≤ h ∧ h ≤ 2160) → (process_config_fields cfg u).config.height = h) ∧
      (¬(240 ≤ h ∧ h ≤ 2160) → (process_config_fields cfg u).config.height = cfg.height)) := by
  constructor
  · intro hw hw1 hw2
    have hgw := gintOfJson_eq_self hw1 hw2
    unfold process_config_fields newWidth
    rw [hw]
    simp only [hgw]
    constructor <;> intro hc <;> simp <;> split_ifs <;> simp_all
  · intro hh hh1 hh2
    have hgh := gintOfJson_eq_self hh1 hh2
    unfold process_config_fields newHeight
    rw [hh]
    simp only [hgh]
    constructor <;> intro hc <;> simp <;> split_ifs <;> simp_all

/-- Witness for `c1_width_height_bounds`: width 1920 (in range) is stored,
height 2400 (out of range) keeps the prior 720. -/
theorem c1_width_height_bounds_witness :
    (process_config_fields init_config
        { width := some 1920, height := some 2400 }).config.width = 1920 ∧
    (process_config_fields init_config
        { width := some 1920, height := some 2400 }).config.height = 720 := by
  have t := c1_width_height_bounds init_config { width := some 1920, height := some 2400 }
    1920 2400
  exact ⟨(t.1 rfl (by decide) (by decide)).1 (by decide),
    (t.2 rfl (by decide) (by decide)).2 (by decide)⟩

/-! ## Claim C2: sink-only updates are hot-patched in place -/

/-- Claim C2 (confirmed): an update whose present fields are only host
and/or port, at least one of which changes, applied while a pipeline is
live, patches the sink address in place: the restart flag is untouched,
the `StreamStats` counters are not reset, and the stream state
(`should_terminate`) is unchanged. -/
theorem c2_sink_only_hot_patch (data : CustomData) (u : ConfigUpdate) (sink : PipelineHandle)
    (hsrc : u.src = none) (hdev : u.device = none) (henc : u.encoder = none)
    (hwid : u.width = none) (hhei : u.height = none) (hfr : u.framerate = none)
    (haf : u.autofocus = none)
    (hp : data.pipeline = some sink)
    (hchange : (∃ v, u.host = some v ∧ v ≠ data.config.host) ∨
               (∃ p, u.port = some p ∧ gintOfJson p ≠ data.config.port)) :
    (process_config_update data u).pipeline_is_restarting = data.pipeline_is_restarting ∧
    (process_config_update data u).stats = data.stats ∧
    (process_config_update data u).pipeline =
      some { sink with
        sinkHost := (process_config_fields data.config u).config.host
        sinkPort := (process_config_fields data.config u).config.port } ∧
    (process_config_update data u).should_terminate = data.should_terminate := by
  have hrb : (process_config_fields data.config u).needsRebuild = false := by
    simp [process_config_fields, newSrc, newDevice, newEncoder, newWidth,
      newHeight, newFramerate, newAutofocus, hsrc, hdev, henc, hwid, hhei, hfr, haf]
  have hudp : (process_config_fields data.config u).needsUdp = true := by
    rcases hchange with ⟨v, hv, hne⟩ | ⟨p, hpv, hne⟩
    · simp [process_config_fields, newHost, hv, Ne.symm hne]
    · simp [process_config_fields, newPort, hpv, Ne.symm hne]
  simp [process_config_update, hrb, hudp, hp]

/-- Witness for `c2_sink_only_hot_patch`: host changed to `10.0.0.5` on the
running controller. -/
theorem c2_sink_only_hot_patch_witness :
    (process_config_update runningData { host := some "10.0.0.5" }).pipeline_is_restarting =
      runningData.pipeline_is_restarting ∧
    (process_config_update runningData { host := some "10.0.0.5" }).stats = runningData.stats ∧
    (process_config_update runningData { host := some "10.0.0.5" }).pipeline =
      some { sampleHandle with
        sinkHost := (process_config_fields runningData.config { host := some "10.0.0.5" }).config.host
        sinkPort := (process_config_fields runningData.config { host := some "10.0.0.5" }).config.port } ∧
    (process_config_update runningData { host := some "10.0.0.5" }).should_terminate =
      runningData.should_terminate := by
  exact c2_sink_only_hot_patch runningData { host := some "10.0.0.5" } sampleHandle
    rfl rfl rfl rfl rfl rfl rfl rfl (Or.inl ⟨"10.0.0.5", rfl, by decide⟩)

/-! ## Claim C3: structural updates rebuild once and reset stats once -/

/-- Claim C3 counterexample: the claim states the stats counters are never
reset when the build does not complete successfully.  But the reset block
(src/f1sh_camera_tx.c:782-788) precedes the PLAYING state change
(src:790): with a backend whose PLAYING transition fails (first attempt)
and whose second attempt fails outright, no build completes successfully
(no pipeline handle remains, the controller terminates), yet the stats
were reset — `total_bytes` dropped from 999 to 0. -/
theorem c3_counterexample :
    (process_config_update runningData { framerate := some 30 }).pipeline_is_restarting = true ∧
    (main_restart_step envPlayFail envAllFail
        (process_config_update runningData { framerate := some 30 })).resets = 1 ∧
    (main_restart_step envPlayFail envAllFail
        (process_config_update runningData { framerate := some 30 })).data.pipeline = none ∧
    (main_restart_step envPlayFail envAllFail
        (process_config_update runningData { framerate := some 30 })).data.stats.total_bytes = 0 ∧
    runningData.stats.total_bytes = 999 ∧
    (main_restart_step envPlayFail envAllFail
        (process_config_update runningData { framerate := some 30 })).data.should_terminate = true := by
  decide

/-- Claim C3, amended: a structural update sets the restart flag, and the
main loop then performs exactly one build attempt when the backend
succeeds: one teardown (when a pipeline was live), one pipeline
construction, and exactly one stats reset, which happens at the point the
rebuild reaches its start phase (all elements created and linked) — even
if the subsequent PLAYING transition fails — and never on a hot patch. -/
theorem c3_structural_rebuild (env1 env2 : BuildEnv) (data : CustomData) (u : ConfigUpdate)
    (hrb : (process_config_fields data.config u).needsRebuild = true)
    (hok : env1.allOk) :
    (process_config_update data u).pipeline_is_restarting = true ∧
    (main_restart_step env1 env2 (process_config_update data u)).attempts = 1 ∧
    (main_restart_step env1 env2 (process_config_update data u)).builds = 1 ∧
    (main_restart_step env1 env2 (process_config_update data u)).resets = 1 ∧
    (main_restart_step env1 env2 (process_config_update data u)).teardowns =
      (if data.pipeline.isSome then 1 else 0) ∧
    (main_restart_step env1 env2 (process_config_update data u)).data.stats = resetStats env1.now ∧
    (main_restart_step env1 env2 (process_config_update data u)).data.pipeline =
      some { sinkHost := (process_config_fields data.config u).config.host,
             sinkPort := (process_config_fields data.config u).config.port,
             encoder := (process_config_fields data.config u).config.encoder_type } ∧
    (∀ env d, (build_and_run_pipeline env d).resets =
        if reachesStartPhase env d.config then 1 else 0) ∧
    (∀ d v, (process_config_fields d.config v).needsRebuild = false →
        (process_config_update d v).stats = d.stats) := by
  have hstep : process_config_update data u =
      { data with
          config := (process_config_fields data.config u).config
          pipeline_is_restarting := true } := by
    simp [process_config_update, hrb]
  rw [hstep]
  have hb := build_allOk env1
    { data with
        config := (process_config_fields data.config u).config
        pipeline_is_restarting := false } hok
  refine ⟨rfl, ?_, ?_, ?_, ?_, ?_, ?_, fun env d => build_resets_iff env d, ?_⟩
  · simp [main_restart_step, hb]
  · simp [main_restart_step, hb]
  · simp [main_restart_step, hb]
  · simp [main_restart_step, hb]
  · simp [main_restart_step, hb]
  · simp [main_restart_step, hb]
  · intro d v hno
    simp only [process_config_update, hno]
    repeat' split
    all_goals rfl

/-- Witness for `c3_structural_rebuild`: framerate change on the running
controller, all-successful backend. -/
theorem c3_structural_rebuild_witness :
    (process_config_update runningData { framerate := some 30 }).pipeline_is_restarting = true ∧
    (main_restart_step envAllOk envAllFail
        (process_config_update runningData { framerate := some 30 })).attempts = 1 ∧
    (main_restart_step envAllOk envAllFail
        (process_config_update runningData { framerate := some 30 })).builds = 1 ∧
    (main_restart_step envAllOk envAllFail
        (process_config_update runningData { framerate := some 30 })).resets = 1 ∧
    (main_restart_step envAllOk envAllFail
        (process_config_update runningData { framerate := some 30 })).teardowns =
      (if runningData.pipeline.isSome then 1 else 0) ∧
    (main_restart_step envAllOk envAllFail
        (process_config_update runningData { framerate := some 30 })).data.stats =
      resetStats envAllOk.now ∧
    (main_restart_step envAllOk envAllFail
        (process_config_update runningData { framerate := some 30 })).data.pipeline =
      some { sinkHost := (process_config_fields runningData.config { framerate := some 30 }).config.host,
             sinkPort := (process_config_fields runningData.config { framerate := some 30 }).config.port,
             encoder := (process_config_fields runningData.config { framerate := some 30 }).config.encoder_type } ∧
    (∀ env d, (build_and_run_pipeline env d).resets =
        if reachesStartPhase env d.config then 1 else 0) ∧
    (∀ d v, (process_config_fields d.config v).needsRebuild = false →
        (process_config_update d v).stats = d.stats) := by
  exact c3_structural_rebuild envAllOk envAllFail runningData { framerate := some 30 }
    (by decide) ⟨rfl, rfl, rfl, rfl, rfl, rfl, rfl, rfl, rfl, rfl⟩

/-! ## Claim C4: read-after-apply returns the accepted merge -/

/-- Modelled from the spec (§4.1, §8): the expected Read-after-Apply
result, written after the spec's words for the refinement claim C4 — each
present field is validated against its bounds; every accepted field's new
value is merged onto the prior snapshot; every rejected field retains its
prior value; a rejected field does not block the others.  The integer
values are those delivered by the JSON decoding collaborator, i.e. C
`gint`s (`gintOfJson`); the width/height bounds are the program's
(see C1 for the spec-vs-code bound discrepancy, recorded separately). -/
def specMergeAccepted (cfg : AppConfig) (u : ConfigUpdate) : AppConfig where
  host := match u.host with | some v => v | none => cfg.host
  port := match u.port with | some v => gintOfJson v | none => cfg.port
  src_type := match u.src with | some v => v | none => cfg.src_type
  device := match u.device with | some v => v | none => cfg.device
  encoder_type := match u.encoder with | some v => v | none => cfg.encoder_type
  width := match u.width with
    | some v => if 320 ≤ gintOfJson v ∧ gintOfJson v ≤ 4096 then gintOfJson v else cfg.width
    | none => cfg.width
  height := match u.height with
    | some v => if 240 ≤ gintOfJson v ∧ gintOfJson v ≤ 2160 then gintOfJson v else cfg.height
    | none => cfg.height
  framerate := match u.framerate with
    | some v => if 1 ≤ gintOfJson v ∧ gintOfJson v ≤ 120 then gintOfJson v else cfg.framerate
    | none => cfg.framerate
  autofocus := match u.autofocus with | some v => v | none => cfg.autofocus
  lens_position := match u.lens_position with
    | some (.real r) => r
    | some (.int i) => (i : Rat)
    | none => cfg.lens_position

/-- Claim C4 (confirmed): for every partial update, a configuration read
performed after the update returns exactly the accepted fields merged onto
the prior snapshot; every rejected field retains its prior value, and a
rejected field never blocks acceptance of the other fields. -/
theorem c4_read_after_apply (data : CustomData) (u : ConfigUpdate) :
    handle_get_config (process_config_update data u) =
      specMergeAccepted data.config u := by
  unfold handle_get_config
  rw [process_config_update_config]
  unfold process_config_fields specMergeAccepted
  simp only [AppConfig.mk.injEq]
  refine ⟨?_, ?_, ?_, ?_, ?_, ?_, ?_, ?_, ?_, ?_⟩
  · cases hu : u.host <;> simp [newHost, hu] <;> split_ifs <;> simp_all
  · cases hu : u.port <;> simp [newPort, hu] <;> split_ifs <;> simp_all
  · cases hu : u.src <;> simp [newSrc, hu] <;> split_ifs <;> simp_all
  · cases hu : u.device <;> simp [newDevice, hu]
  · cases hu : u.encoder <;> simp [newEncoder, hu] <;> split_ifs <;> simp_all
  · cases hu : u.width <;> simp [newWidth, hu] <;> split_ifs <;> omega
  · cases hu : u.height <;> simp [newHeight, hu] <;> split_ifs <;> omega
  · cases hu : u.framerate <;> simp [newFramerate, hu] <;> split_ifs <;> omega
  · cases hu : u.autofocus <;> simp [newAutofocus, hu] <;> split_ifs <;> simp_all
  · cases hu : u.lens_position <;> simp [newLens, hu]

/-! ## Claim C5: change detection on every field -/

/-- Claim C5 (code bug): the claim — and the spec's stated
change-detection policy — says an update that sets any field, including
device, to its current value produces an empty delta and no rebuild.  The
device block (src/f1sh_camera_tx.c:349-355) has no change detection: a
device value equal to the current one leaves the configuration unchanged
yet sets `needs_pipeline_rebuild` and schedules a full restart. -/
theorem c5_device_rebuild_without_change :
    (process_config_fields runningData.config
        { device := some runningData.config.device }).needsRebuild = true ∧
    (process_config_update runningData
        { device := some runningData.config.device }).config = runningData.config ∧
    (process_config_update runningData
        { device := some runningData.config.device }).pipeline_is_restarting = true := by
  decide

/-! ## Claim C6: out-of-range fields and the HTTP response -/

/-- Claim C6 counterexample: the claim states the HTTP response lists the
rejected fields.  But the response to the update `framerate 500` (rejected,
out of [1,120], no state-machine effect — the whole controller state is
unchanged) is the fixed generic success body, identical to the response to
an update with no rejections at all, so the response reports nothing about
the rejection (src/f1sh_camera_tx.c:485-486). -/
theorem c6_counterexample :
    post_config runningData (some { framerate := some 500 }) =
      (runningData, .ok configUpdatedBody) ∧
    post_config runningData (some { }) = (runningData, .ok configUpdatedBody) := by
  decide

/-- Claim C6, amended: an update containing an out-of-bounds framerate is
rejected without any state-machine effect (the controller state is
entirely unchanged), a warning is only logged, and the HTTP response is
the fixed generic success body, which does not list the rejection. -/
theorem c6_out_of_range_rejected (data : CustomData) (f : Int)
    (h : gintOfJson f < 1 ∨ 120 < gintOfJson f) :
    post_config data (some { framerate := some f }) = (data, .ok configUpdatedBody) := by
  have hfr : newFramerate data.config { framerate := some f } =
      (data.config.framerate, false) := by
    simp only [newFramerate]
    split_ifs with h1
    · omega
    · rfl
  have hfields : process_config_fields data.config { framerate := some f } =
      ⟨data.config, false, false⟩ := by
    simp [process_config_fields, newHost, newPort, newSrc, newDevice, newEncoder,
      newWidth, newHeight, newAutofocus, newLens, hfr]
  simp [post_config, process_config_update, hfields]

/-- Witness for `c6_out_of_range_rejected`: the spec's own scenario,
framerate 500. -/
theorem c6_out_of_range_rejected_witness :
    post_config runningData (some { framerate := some 500 }) =
      (runningData, .ok configUpdatedBody) := by
  exact c6_out_of_range_rejected runningData 500 (by decide)

/-! ## Claim C7: encoder fallback exhaustion leaks no handle -/

set_option maxHeartbeats 1000000 in
/-- Claim C7 (confirmed): encoder creation attempts the configured encoder
and then the bounded fallback list (src/f1sh_camera_tx.c:642-663); when
the configured encoder and every fallback fail, the build fails, and —
generally — every failed build leaves no pipeline handle
(the `error:` label, src:818-829). -/
theorem c7_encoder_fallback_exhausted (env : BuildEnv) (data : CustomData)
    (henc : env.encoderOk = false) (hfb : env.fallbackOk = false) :
    makeEncoder env data.config.encoder_type = none ∧
    (build_and_run_pipeline env data).success = false ∧
    (build_and_run_pipeline env data).data.pipeline = none ∧
    (∀ env2 d2, (build_and_run_pipeline env2 d2).success = false →
        (build_and_run_pipeline env2 d2).data.pipeline = none) := by
  have hmk : makeEncoder env data.config.encoder_type = none := by
    unfold makeEncoder
    rw [henc, hfb]
    simp
  have hsucc : (build_and_run_pipeline env data).success = false := by
    unfold build_and_run_pipeline
    repeat' split
    all_goals simp_all
  exact ⟨hmk, hsucc, build_fail_no_pipeline env data hsucc,
    fun env2 d2 h => build_fail_no_pipeline env2 d2 h⟩

/-- Backend environment in which neither the configured encoder nor the
fallback encoder can be created. -/
def envNoEncoder : BuildEnv := { envAllOk with encoderOk := false, fallbackOk := false }

/-- Witness for `c7_encoder_fallback_exhausted`: encoder and fallback both
unavailable on the running controller. -/
theorem c7_encoder_fallback_exhausted_witness :
    makeEncoder envNoEncoder runningData.config.encoder_type = none ∧
    (build_and_run_pipeline envNoEncoder runningData).success = false ∧
    (build_and_run_pipeline envNoEncoder runningData).data.pipeline = none ∧
    (∀ env2 d2, (build_and_run_pipeline env2 d2).success = false →
        (build_and_run_pipeline env2 d2).data.pipeline = none) := by
  exact c7_encoder_fallback_exhausted envNoEncoder runningData rfl rfl

/-! ## Claim C8: event classification of the monitoring loop -/

/-- Claim C8 (confirmed): the main loop's message switch
(src/f1sh_camera_tx.c:914-953) forces termination on a fatal stream error
and on end-of-stream (sets `should_terminate`, so the streaming loop's
continuation condition fails), while warnings, informational messages and
state-change notifications leave the controller state completely
unchanged. -/
theorem c8_event_classification (data : CustomData) :
    handle_bus_message data .error = { data with should_terminate := true } ∧
    handle_bus_message data .eos = { data with should_terminate := true } ∧
    main_loop_continues (handle_bus_message data .error) = false ∧
    main_loop_continues (handle_bus_message data .eos) = false ∧
    handle_bus_message data .warning = data ∧
    handle_bus_message data .info = data ∧
    handle_bus_message data .stateChanged = data := by
  refine ⟨rfl, rfl, ?_, ?_, rfl, rfl, rfl⟩ <;>
    simp [main_loop_continues, handle_bus_message]

/-! ## Claim C10: the port field is stored without range validation -/

/-- Claim C10 counterexample: the claim states the given integer value is
stored for every integer port field.  For values outside the 32-bit `gint`
range the narrowing `gint new_port = json_integer_value(value)`
(src/f1sh_camera_tx.c:332) truncates: port 2^32 + 5000 is stored as 5000,
not as the given value (the request still reports success). -/
theorem c10_counterexample :
    (process_config_fields init_config { port := some (2 ^ 32 + 5000) }).config.port = 5000 ∧
    ((5000 : Int) ≠ 2 ^ 32 + 5000) ∧
    (post_config runningData (some { port := some (2 ^ 32 + 5000) })).2 =
      .ok configUpdatedBody := by
  decide

/-- Claim C10, amended: every integer port field is accepted with no range
validation and the request reports success; the stored value is the given
value truncated to a 32-bit signed integer — equal to the given value for
every value in [-2^31, 2^31), including negatives, zero and values above
65535 — and the stored value is applied to the sink on a hot patch and
used as the sink port by a rebuild. -/
theorem c10_port_no_validation (data : CustomData) (p : Int) (sink : PipelineHandle)
    (hp : data.pipeline = some sink) :
    (post_config data (some { port := some p })).2 = .ok configUpdatedBody ∧
    (process_config_update data { port := some p }).config.port = gintOfJson p ∧
    (-(2 ^ 31) ≤ p → p < 2 ^ 31 → gintOfJson p = p) ∧
    (gintOfJson p ≠ data.config.port →
      (process_config_update data { port := some p }).pipeline =
        some { sink with sinkHost := data.config.host, sinkPort := gintOfJson p }) ∧
    (∀ env d, env.allOk → (build_and_run_pipeline env d).data.pipeline =
        some { sinkHost := d.config.host, sinkPort := d.config.port,
               encoder := d.config.encoder_type }) := by
  have hport : (newPort data.config { port := some p }).1 = gintOfJson p := by
    simp only [newPort]
    split_ifs with h1 <;> simp_all
  refine ⟨rfl, ?_, ?_, ?_, ?_⟩
  · rw [process_config_update_config]
    exact hport
  · exact fun h1 h2 => gintOfJson_eq_self h1 h2
  · intro hne
    have hrb : (process_config_fields data.config { port := some p }).needsRebuild = false := by
      simp [process_config_fields, newSrc, newDevice, newEncoder, newWidth,
        newHeight, newFramerate, newAutofocus]
    have hudp : (process_config_fields data.config { port := some p }).needsUdp = true := by
      simp [process_config_fields, newHost, newPort, Ne.symm hne]
    have hhost : (process_config_fields data.config { port := some p }).config.host =
        data.config.host := by
      simp [process_config_fields, newHost]
    have hportc : (process_config_fields data.config { port := some p }).config.port =
        gintOfJson p := by
      simpa [process_config_fields] using hport
    simp [process_config_update, hrb, hudp, hp, hhost, hportc]
  · intro env d hok
    rw [build_allOk env d hok]

/-- Witness for `c10_port_no_validation`: the (invalid as a UDP port, yet
accepted) value -7. -/
theorem c10_port_no_validation_witness :
    (post_config runningData (some { port := some (-7) })).2 = .ok configUpdatedBody ∧
    (process_config_update runningData { port := some (-7) }).config.port = gintOfJson (-7) ∧
    (-(2 ^ 31) ≤ (-7 : Int) → (-7 : Int) < 2 ^ 31 → gintOfJson (-7) = -7) ∧
    (gintOfJson (-7) ≠ runningData.config.port →
      (process_config_update runningData { port := some (-7) }).pipeline =
        some { sampleHandle with
                sinkHost := runningData.config.host
                sinkPort := gintOfJson (-7) }) ∧
    (∀ env d, env.allOk → (build_and_run_pipeline env d).data.pipeline =
        some { sinkHost := d.config.host, sinkPort := d.config.port,
               encoder := d.config.encoder_type }) := by
  exact c10_port_no_validation runningData (-7) sampleHandle rfl

/-! ## Claim C9: linearizability of configuration reads and updates

`process_config_update` mutates the configuration field by field while
holding `data->state_mutex` (src/f1sh_camera_tx.c:305-442), and
`handle_get_config` reads the configuration field by field under the same
mutex (src/f1sh_camera_tx.c:226-238).  To settle the torn-read claim we
model exactly that access pattern: an interleaving semantics with three
threads — two updaters, each performing a lock-protected sequence of
field writes, and one reader performing a lock-protected sequence of
field reads — under a single exclusive lock.  A thread scheduled while
the lock is held by another thread is blocked at its acquire (the step is
a no-op), as with `g_mutex_lock`. -/

/-- The configuration fields, in the order `handle_get_config` serialises
them (src/f1sh_camera_tx.c:228-237). -/
inductive CfgField where
  | host
  | port
  | src
  | device
  | encoder
  | width
  | height
  | framerate
  | autofocus
  | lens
deriving DecidableEq, Repr

/-- A configuration field value. -/
inductive FVal where
  | s (v : String)
  | i (v : Int)
  | b (v : Bool)
  | r (v : Rat)
deriving DecidableEq, Repr

/-- Read one field of the configuration. -/
def getField (cfg : AppConfig) : CfgField → FVal
  | .host => .s cfg.host
  | .port => .i cfg.port
  | .src => .s cfg.src_type
  | .device => .s cfg.device
  | .encoder => .s cfg.encoder_type
  | .width => .i cfg.width
  | .height => .i cfg.height
  | .framerate => .i cfg.framerate
  | .autofocus => .b cfg.autofocus
  | .lens => .r cfg.lens_position

/-- Write one field of the configuration (a typed C assignment; a value of
the wrong shape for the field leaves the configuration unchanged and does
not occur in the programs below). -/
def setField (cfg : AppConfig) : CfgField → FVal → AppConfig
  | .host, .s v => { cfg with host := v }
  | .port, .i v => { cfg with port := v }
  | .src, .s v => { cfg with src_type := v }
  | .device, .s v => { cfg with device := v }
  | .encoder, .s v => { cfg with encoder_type := v }
  | .width, .i v => { cfg with width := v }
  | .height, .i v => { cfg with height := v }
  | .framerate, .i v => { cfg with framerate := v }
  | .autofocus, .b v => { cfg with autofocus := v }
  | .lens, .r v => { cfg with lens_position := v }
  | _, _ => cfg

/-- All fields, in serialisation order. -/
def allFields : List CfgField :=
  [.host, .port, .src, .device, .encoder, .width, .height, .framerate,
   .autofocus, .lens]

/-- The full snapshot `handle_get_config` produces from a configuration. -/
def snapshotOf (cfg : AppConfig) : List FVal :=
  allFields.map (getField cfg)

/-- Apply a sequence of field writes. -/
def applyWrites (ws : List (CfgField × FVal)) (cfg : AppConfig) : AppConfig :=
  ws.foldl (fun c p => setField c p.1 p.2) cfg

/-- A primitive operation of a thread: mutex acquire/release, one field
write, or one field read. -/
inductive LockOp where
  | acq
  | rel
  | write (f : CfgField) (v : FVal)
  | readF (f : CfgField)
deriving DecidableEq, Repr

/-- Thread identifiers: two concurrent updaters and one reader. -/
inductive Tid where
  | u1
  | u2
  | rd
deriving DecidableEq, Repr

/-- A thread: its remaining operations and the field values it has read. -/
structure ThreadSt where
  prog : List LockOp
  snap : List FVal
deriving DecidableEq, Repr

/-- The shared state: the mutex (with owner), the configuration, and the
three threads. -/
structure ConcSys where
  lock : Option Tid
  config : AppConfig
  u1 : ThreadSt
  u2 : ThreadSt
  rd : ThreadSt
deriving DecidableEq, Repr

/-- One step of thread `me`: execute its next operation if possible.  An
`acq` against a held lock blocks (no-op); all other operations of the
programs below are only reached while holding the lock. -/
def stepThread (lock : Option Tid) (me : Tid) (cfg : AppConfig)
    (th : ThreadSt) : Option Tid × AppConfig × ThreadSt :=
  match th.prog with
  | [] => (lock, cfg, th)
  | .acq :: rest =>
      match lock with
      | none => (some me, cfg, { th with prog := rest })
      | some _ => (lock, cfg, th)
  | .rel :: rest =>
      if lock = some me then (none, cfg, { th with prog := rest })
      else (lock, cfg, th)
  | .write f v :: rest => (lock, setField cfg f v, { th with prog := rest })
  | .readF f :: rest =>
      (lock, cfg, { prog := rest, snap := th.snap ++ [getField cfg f] })

/-- Schedule one step of the chosen thread. -/
def concStep (s : ConcSys) : Tid → ConcSys
  | .u1 =>
      let r := stepThread s.lock .u1 s.config s.u1
      { s with lock := r.1, config := r.2.1, u1 := r.2.2 }
  | .u2 =>
      let r := stepThread s.lock .u2 s.config s.u2
      { s with lock := r.1, config := r.2.1, u2 := r.2.2 }
  | .rd =>
      let r := stepThread s.lock .rd s.config s.rd
      { s with lock := r.1, config := r.2.1, rd := r.2.2 }

/-- Run a schedule (an arbitrary interleaving of the three threads). -/
def runSched (sched : List Tid) (s : ConcSys) : ConcSys :=
  sched.foldl concStep s

/-- An updater thread: one `process_config_update` critical section —
acquire the state mutex, perform its field writes, release
(src/f1sh_camera_tx.c:305,320-414,442). -/
def updaterProg (ws : List (CfgField × FVal)) : List LockOp :=
  .acq :: (ws.map fun p => .write p.1 p.2) ++ [.rel]

/-- The reader thread: one `handle_get_config` critical section — acquire
the state mutex, read every field, release
(src/f1sh_camera_tx.c:226-238). -/
def readerProg : List LockOp :=
  .acq :: allFields.map .readF ++ [.rel]

/-- Initial state: two updaters with write sequences `ws1`, `ws2` and one
reader, configuration `c0`, lock free. -/
def initSys (c0 : AppConfig) (ws1 ws2 : List (CfgField × FVal)) : ConcSys :=
  { lock := none
    config := c0
    u1 := { prog := updaterProg ws1, snap := [] }
    u2 := { prog := updaterProg ws2, snap := [] }
    rd := { prog := readerProg, snap := [] } }

/-- The snapshots the claim allows a reader to observe: the full pre- or
post-state of each update — initial, after either single update, or after
both updates in either completion order; never a mixture of the fields of
an incomplete update. -/
def snapOK (c0 : AppConfig) (ws1 ws2 : List (CfgField × FVal))
    (snap : List FVal) : Prop :=
  snap = snapshotOf c0 ∨
  snap = snapshotOf (applyWrites ws1 c0) ∨
  snap = snapshotOf (applyWrites ws2 c0) ∨
  snap = snapshotOf (applyWrites ws2 (applyWrites ws1 c0)) ∨
  snap = snapshotOf (applyWrites ws1 (applyWrites ws2 c0))

/-- One updater's lifecycle flag: `d = false` — has not yet entered its
critical section (program untouched); `d = true` — has completed it. -/
def updPhase (ws : List (CfgField × FVal)) (th : ThreadSt) (d : Bool) : Prop :=
  (d = false ∧ th = ⟨updaterProg ws, []⟩) ∨ (d = true ∧ th = ⟨[], []⟩)

/-- The configurations observable while no thread is mid-critical-section,
given which updaters have completed: the initial configuration, either
single update applied, or both applied in either completion order. -/
def quiet (c0 : AppConfig) (ws1 ws2 : List (CfgField × FVal))
    (d1 d2 : Bool) (c : AppConfig) : Prop :=
  match d1, d2 with
  | false, false => c = c0
  | true, false => c = applyWrites ws1 c0
  | false, true => c = applyWrites ws2 c0
  | true, true =>
      c = applyWrites ws2 (applyWrites ws1 c0) ∨
      c = applyWrites ws1 (applyWrites ws2 c0)

/-- The reader outside its critical section: not yet started, or finished
with an un-torn snapshot. -/
def rdOuter (c0 : AppConfig) (ws1 ws2 : List (CfgField × FVal))
    (th : ThreadSt) : Prop :=
  th = ⟨readerProg, []⟩ ∨ (th.prog = [] ∧ snapOK c0 ws1 ws2 th.snap)

/-- The mutual-exclusion invariant: either the lock is free and every
thread is at a program boundary with the configuration quiescent, or
exactly the lock-holding thread is mid-critical-section — an updater with
a prefix of its writes applied on top of a quiescent base, or the reader
having read a prefix of the fields of the (quiescent, unchanging)
configuration — while both other threads are at boundaries. -/
def ConcInv (c0 : AppConfig) (ws1 ws2 : List (CfgField × FVal)) (s : ConcSys) : Prop :=
  (s.lock = none ∧ ∃ d1 d2, updPhase ws1 s.u1 d1 ∧ updPhase ws2 s.u2 d2 ∧
      quiet c0 ws1 ws2 d1 d2 s.config ∧ rdOuter c0 ws1 ws2 s.rd) ∨
  (s.lock = some .u1 ∧ ∃ d2 dn td base, ws1 = dn ++ td ∧
      s.u1 = ⟨(td.map fun p => .write p.1 p.2) ++ [.rel], []⟩ ∧
      updPhase ws2 s.u2 d2 ∧ quiet c0 ws1 ws2 false d2 base ∧
      s.config = applyWrites dn base ∧ rdOuter c0 ws1 ws2 s.rd) ∨
  (s.lock = some .u2 ∧ ∃ d1 dn td base, ws2 = dn ++ td ∧
      s.u2 = ⟨(td.map fun p => .write p.1 p.2) ++ [.rel], []⟩ ∧
      updPhase ws1 s.u1 d1 ∧ quiet c0 ws1 ws2 d1 false base ∧
      s.config = applyWrites dn base ∧ rdOuter c0 ws1 ws2 s.rd) ∨
  (s.lock = some .rd ∧ ∃ d1 d2 dn td, allFields = dn ++ td ∧
      s.rd = ⟨td.map .readF ++ [.rel], dn.map (getField s.config)⟩ ∧
      updPhase ws1 s.u1 d1 ∧ updPhase ws2 s.u2 d2 ∧
      quiet c0 ws1 ws2 d1 d2 s.config)

/-- Extending an applied write prefix by one write. -/
theorem applyWrites_snoc (ws : List (CfgField × FVal)) (p : CfgField × FVal)
    (c : AppConfig) :
    applyWrites (ws ++ [p]) c = setField (applyWrites ws c) p.1 p.2 := by
  simp [applyWrites, List.foldl_append]

/-- A finished thread's step is a no-op. -/
theorem stepThread_nil (lock : Option Tid) (me : Tid) (cfg : AppConfig)
    (th : ThreadSt) (h : th.prog = []) :
    stepThread lock me cfg th = (lock, cfg, th) := by
  simp [stepThread, h]

/-- An acquire against a held lock blocks. -/
theorem stepThread_blocked (o : Tid) (me : Tid) (cfg : AppConfig)
    (th : ThreadSt) (rest : List LockOp) (h : th.prog = .acq :: rest) :
    stepThread (some o) me cfg th = (some o, cfg, th) := by
  simp [stepThread, h]

/-- A quiescent configuration's full snapshot is one of the snapshots the
claim allows. -/
theorem quiet_snapOK (c0 : AppConfig) (ws1 ws2 : List (CfgField × FVal))
    (d1 d2 : Bool) (c : AppConfig) (h : quiet c0 ws1 ws2 d1 d2 c) :
    snapOK c0 ws1 ws2 (snapshotOf c) := by
  unfold snapOK
  cases d1 <;> cases d2 <;> simp only [quiet] at h
  · exact Or.inl (congrArg snapshotOf h)
  · exact Or.inr (Or.inr (Or.inl (congrArg snapshotOf h)))
  · exact Or.inr (Or.inl (congrArg snapshotOf h))
  · rcases h with h | h
    · exact Or.inr (Or.inr (Or.inr (Or.inl (congrArg snapshotOf h))))
    · exact Or.inr (Or.inr (Or.inr (Or.inr (congrArg snapshotOf h))))

/-- Completing updater 1 from a base in which it had not yet run yields a
quiescent configuration in which it has. -/
theorem quiet_after_u1 (c0 : AppConfig) (ws1 ws2 : List (CfgField × FVal))
    (d2 : Bool) (base : AppConfig) (h : quiet c0 ws1 ws2 false d2 base) :
    quiet c0 ws1 ws2 true d2 (applyWrites ws1 base) := by
  cases d2 <;> simp only [quiet] at *
  · rw [h]
  · right
    rw [h]

/-- Completing updater 2, symmetric to `quiet_after_u1`. -/
theorem quiet_after_u2 (c0 : AppConfig) (ws1 ws2 : List (CfgField × FVal))
    (d1 : Bool) (base : AppConfig) (h : quiet c0 ws1 ws2 d1 false base) :
    quiet c0 ws1 ws2 d1 true (applyWrites ws2 base) := by
  cases d1 <;> simp only [quiet] at *
  · rw [h]
  · left
    rw [h]

set_option maxHeartbeats 2000000 in
/-- The invariant is preserved by every step of every thread. -/
theorem concInv_step (c0 : AppConfig) (ws1 ws2 : List (CfgField × FVal))
    (s : ConcSys) (t : Tid) (h : ConcInv c0 ws1 ws2 s) :
    ConcInv c0 ws1 ws2 (concStep s t) := by
  obtain ⟨lk, cfg, tu1, tu2, trd⟩ := s
  rcases h with ⟨hl, d1, d2, hu1, hu2, hq, hr⟩ |
    ⟨hl, d2, dn, td, base, hsp, hu1, hu2, hq, hcfg, hr⟩ |
    ⟨hl, d1, dn, td, base, hsp, hu2, hu1, hq, hcfg, hr⟩ |
    ⟨hl, d1, d2, dn, td, hsp, hrd, hu1, hu2, hq⟩
  -- case: lock free
  · simp only at hl hq
    subst hl
    cases t
    · rcases hu1 with ⟨hd, hth⟩ | ⟨hd, hth⟩
      · subst hd hth
        simp only [concStep, stepThread, updaterProg]
        exact Or.inr (Or.inl ⟨rfl, d2, [], ws1, cfg, by simp, rfl, hu2, hq, rfl, hr⟩)
      · subst hd hth
        simp only [concStep, stepThread]
        exact Or.inl ⟨rfl, true, d2, Or.inr ⟨rfl, rfl⟩, hu2, hq, hr⟩
    · rcases hu2 with ⟨hd, hth⟩ | ⟨hd, hth⟩
      · subst hd hth
        simp only [concStep, stepThread, updaterProg]
        exact Or.inr (Or.inr (Or.inl ⟨rfl, d1, [], ws2, cfg, by simp, rfl, hu1, hq, rfl, hr⟩))
      · subst hd hth
        simp only [concStep, stepThread]
        exact Or.inl ⟨rfl, d1, true, hu1, Or.inr ⟨rfl, rfl⟩, hq, hr⟩
    · rcases hr with hth | ⟨hpr, hsn⟩
      · subst hth
        simp only [concStep, stepThread, readerProg]
        exact Or.inr (Or.inr (Or.inr ⟨rfl, d1, d2, [], allFields, by simp, by simp, hu1, hu2, hq⟩))
      · simp only at hpr
        obtain ⟨pr, sn⟩ := trd
        simp only at hpr
        subst hpr
        simp only [concStep, stepThread]
        exact Or.inl ⟨rfl, d1, d2, hu1, hu2, hq, Or.inr ⟨rfl, hsn⟩⟩
  -- case: u1 inside its critical section
  · simp only at hl hu1 hcfg
    subst hl hu1 hcfg
    cases t
    · cases td with
      | nil =>
        simp only [List.map_nil, List.nil_append, concStep, stepThread, reduceIte]
        have hdn : dn = ws1 := by simpa using hsp.symm
        exact Or.inl ⟨rfl, true, d2, Or.inr ⟨rfl, rfl⟩, hu2,
          by rw [hdn]; exact quiet_after_u1 c0 ws1 ws2 d2 base hq, hr⟩
      | cons p rest =>
        simp only [List.map_cons, List.cons_append, concStep, stepThread]
        refine Or.inr (Or.inl ⟨rfl, d2, dn ++ [p], rest, base, ?_, rfl, hu2, hq,
          (applyWrites_snoc dn p base).symm, hr⟩)
        rw [hsp]
        simp
    · rcases hu2 with ⟨hd, hth⟩ | ⟨hd, hth⟩
      · subst hth
        simp only [concStep, stepThread, updaterProg]
        exact Or.inr (Or.inl ⟨rfl, d2, dn, td, base, hsp, rfl,
          Or.inl ⟨hd, rfl⟩, hq, rfl, hr⟩)
      · subst hth
        simp only [concStep, stepThread]
        exact Or.inr (Or.inl ⟨rfl, d2, dn, td, base, hsp, rfl,
          Or.inr ⟨hd, rfl⟩, hq, rfl, hr⟩)
    · rcases hr with hth | ⟨hpr, hsn⟩
      · subst hth
        simp only [concStep, stepThread, readerProg]
        exact Or.inr (Or.inl ⟨rfl, d2, dn, td, base, hsp, rfl, hu2, hq, rfl,
          Or.inl rfl⟩)
      · obtain ⟨pr, sn⟩ := trd
        simp only at hpr
        subst hpr
        simp only [concStep, stepThread]
        exact Or.inr (Or.inl ⟨rfl, d2, dn, td, base, hsp, rfl, hu2, hq, rfl,
          Or.inr ⟨rfl, hsn⟩⟩)
  -- case: u2 inside its critical section
  · simp only at hl hu2 hcfg
    subst hl hu2 hcfg
    cases t
    · rcases hu1 with ⟨hd, hth⟩ | ⟨hd, hth⟩
      · subst hth
        simp only [concStep, stepThread, updaterProg]
        exact Or.inr (Or.inr (Or.inl ⟨rfl, d1, dn, td, base, hsp, rfl,
          Or.inl ⟨hd, rfl⟩, hq, rfl, hr⟩))
      · subst hth
        simp only [concStep, stepThread]
        exact Or.inr (Or.inr (Or.inl ⟨rfl, d1, dn, td, base, hsp, rfl,
          Or.inr ⟨hd, rfl⟩, hq, rfl, hr⟩))
    · cases td with
      | nil =>
        simp only [List.map_nil, List.nil_append, concStep, stepThread, reduceIte]
        have hdn : dn = ws2 := by simpa using hsp.symm
        exact Or.inl ⟨rfl, d1, true, hu1, Or.inr ⟨rfl, rfl⟩,
          by rw [hdn]; exact quiet_after_u2 c0 ws1 ws2 d1 base hq, hr⟩
      | cons p rest =>
        simp only [List.map_cons, List.cons_append, concStep, stepThread]
        refine Or.inr (Or.inr (Or.inl ⟨rfl, d1, dn ++ [p], rest, base, ?_, rfl, hu1, hq,
          (applyWrites_snoc dn p base).symm, hr⟩))
        rw [hsp]
        simp
    · rcases hr with hth | ⟨hpr, hsn⟩
      · subst hth
        simp only [concStep, stepThread, readerProg]
        exact Or.inr (Or.inr (Or.inl ⟨rfl, d1, dn, td, base, hsp, rfl, hu1, hq, rfl,
          Or.inl rfl⟩))
      · obtain ⟨pr, sn⟩ := trd
        simp only at hpr
        subst hpr
        simp only [concStep, stepThread]
        exact Or.inr (Or.inr (Or.inl ⟨rfl, d1, dn, td, base, hsp, rfl, hu1, hq, rfl,
          Or.inr ⟨rfl, hsn⟩⟩))
  -- case: rd inside its critical section
  · simp only at hl hrd hq
    subst hl hrd
    cases t
    · rcases hu1 with ⟨hd, hth⟩ | ⟨hd, hth⟩
      · subst hth
        simp only [concStep, stepThread, updaterProg]
        exact Or.inr (Or.inr (Or.inr ⟨rfl, d1, d2, dn, td, hsp, rfl,
          Or.inl ⟨hd, rfl⟩, hu2, hq⟩))
      · subst hth
        simp only [concStep, stepThread]
        exact Or.inr (Or.inr (Or.inr ⟨rfl, d1, d2, dn, td, hsp, rfl,
          Or.inr ⟨hd, rfl⟩, hu2, hq⟩))
    · rcases hu2 with ⟨hd, hth⟩ | ⟨hd, hth⟩
      · subst hth
        simp only [concStep, stepThread, updaterProg]
        exact Or.inr (Or.inr (Or.inr ⟨rfl, d1, d2, dn, td, hsp, rfl, hu1,
          Or.inl ⟨hd, rfl⟩, hq⟩))
      · subst hth
        simp only [concStep, stepThread]
        exact Or.inr (Or.inr (Or.inr ⟨rfl, d1, d2, dn, td, hsp, rfl, hu1,
          Or.inr ⟨hd, rfl⟩, hq⟩))
    · cases td with
      | nil =>
        simp only [List.map_nil, List.nil_append, concStep, stepThread, reduceIte]
        have hdn : dn = allFields := by simpa using hsp.symm
        exact Or.inl ⟨rfl, d1, d2, hu1, hu2, hq,
          Or.inr ⟨rfl, by rw [hdn]; exact quiet_snapOK c0 ws1 ws2 d1 d2 cfg hq⟩⟩
      | cons f rest =>
        simp only [List.map_cons, List.cons_append, concStep, stepThread]
        refine Or.inr (Or.inr (Or.inr ⟨rfl, d1, d2, dn ++ [f], rest, ?_, ?_, hu1, hu2, hq⟩))
        · rw [hsp]
          simp
        · simp

/-- The invariant is preserved by every schedule. -/
theorem concInv_run (c0 : AppConfig) (ws1 ws2 : List (CfgField × FVal))
    (sched : List Tid) (s : ConcSys) (h : ConcInv c0 ws1 ws2 s) :
    ConcInv c0 ws1 ws2 (runSched sched s) := by
  induction sched generalizing s with
  | nil => exact h
  | cons t ts ih => exact ih (concStep s t) (concInv_step c0 ws1 ws2 s t h)

/-- The initial state satisfies the invariant. -/
theorem concInv_init (c0 : AppConfig) (ws1 ws2 : List (CfgField × FVal)) :
    ConcInv c0 ws1 ws2 (initSys c0 ws1 ws2) :=
  Or.inl ⟨rfl, false, false, Or.inl ⟨rfl, rfl⟩, Or.inl ⟨rfl, rfl⟩, rfl, Or.inl rfl⟩

/-- Claim C9 (confirmed): configuration reads and updates are linearizable
with respect to each other.  For two concurrent `process_config_update`
critical sections (arbitrary field-write sequences `ws1`, `ws2`) and one
concurrent `handle_get_config` reader, under every interleaving permitted
by the state mutex, a completed reader's snapshot is the full snapshot of
the initial configuration, of one update applied, or of both updates
applied in either completion order — never a mixture containing only some
fields of an update. -/
theorem c9_no_torn_read (c0 : AppConfig) (ws1 ws2 : List (CfgField × FVal))
    (sched : List Tid)
    (hdone : (runSched sched (initSys c0 ws1 ws2)).rd.prog = []) :
    snapOK c0 ws1 ws2 (runSched sched (initSys c0 ws1 ws2)).rd.snap := by
  have hinv := concInv_run c0 ws1 ws2 sched _ (concInv_init c0 ws1 ws2)
  rcases hinv with ⟨_, _, _, _, _, _, hr⟩ |
    ⟨_, _, _, _, _, _, _, _, _, _, hr⟩ |
    ⟨_, _, _, _, _, _, _, _, _, _, hr⟩ |
    ⟨_, _, _, _, _, _, hrd, _, _, _⟩
  · rcases hr with hth | ⟨_, hsn⟩
    · rw [hth] at hdone
      simp [readerProg] at hdone
    · exact hsn
  · rcases hr with hth | ⟨_, hsn⟩
    · rw [hth] at hdone
      simp [readerProg] at hdone
    · exact hsn
  · rcases hr with hth | ⟨_, hsn⟩
    · rw [hth] at hdone
      simp [readerProg] at hdone
    · exact hsn
  · rw [hrd] at hdone
    simp at hdone

/-- A demonstration schedule: updater 1 runs its critical section (with
two blocked reader acquire attempts interleaved), the reader then takes
its full snapshot, finally updater 2 runs. -/
def demoSched : List Tid :=
  [.u1, .rd, .u1, .rd, .u1] ++ List.replicate 12 .rd ++ [.u2, .u2, .u2]

/-- Witness for `c9_no_torn_read` on a concrete interleaving of a width
update, a host update and a reader. -/
theorem c9_no_torn_read_witness :
    snapOK init_config [(.width, .i 1920)] [(.host, .s "10.0.0.5")]
      (runSched demoSched
        (initSys init_config [(.width, .i 1920)] [(.host, .s "10.0.0.5")])).rd.snap := by
  exact c9_no_torn_read init_config [(.width, .i 1920)] [(.host, .s "10.0.0.5")]
    demoSched (by decide)

example :
    (runSched demoSched
      (initSys init_config [(.width, .i 1920)] [(.host, .s "10.0.0.5")])).rd.snap =
    snapshotOf (applyWrites [(.width, .i 1920)] init_config) := by
  decide

example :
    (runSched [.u1, .rd]
      (initSys init_config [(.width, .i 1920)] [(.host, .s "10.0.0.5")])).rd =
    { prog := readerProg, snap := [] } := by
  decide
